import Mathlib

/-!
Shallow embedding of `qutebrowser/browser/browsertab.py` and of the BDD step
glue in `tests/integration/features/conftest.py`, together with theorems
checking the specification's claims about them.

Conventions of the embedding:
* Qt signal emissions are made explicit: a slot that emits signals returns,
  next to the updated state, the list of emitted signals in emission order.
* Python exceptions are made explicit: a method that can raise returns a
  flag recording whether it raised, next to the state it leaves behind.
* Python floats are modelled as rationals; `int()` is truncation toward zero.
* Backend-provided values (`self.url()`, `self.title()`) are fields of the
  tab state, since the abstract methods only read them from the widget.
-/

/-- The `usertypes.LoadStatus` enumeration; its members are the ones used in
`browsertab.py`: `none`, `success`, `success_https`, `error`, `warn`,
`loading`. -/
inductive LoadStatus
  | none
  | success
  | success_https
  | error
  | warn
  | loading
  deriving DecidableEq, Repr

/-- The Python `.name` attribute of a `LoadStatus` member (the string emitted
by `load_status_changed`). -/
def LoadStatus.name : LoadStatus → String
  | .none => "none"
  | .success => "success"
  | .success_https => "success_https"
  | .error => "error"
  | .warn => "warn"
  | .loading => "loading"

/-- The `usertypes.ClickTarget` enumeration, members as used in
`browsertab.py`: `normal`, `tab`, `tab_bg`, `window`. -/
inductive ClickTarget
  | normal
  | tab
  | tab_bg
  | window
  deriving DecidableEq, Repr

/-- The attribute namespace `TabData` (`browsertab.py`, class `TabData`).
`inspector` holds an opaque object or `None`; we only track presence. -/
structure TabData where
  keep_icon : Bool
  viewing_source : Bool
  inspector : Option Unit
  open_target : ClickTarget
  hint_target : Option ClickTarget
  deriving DecidableEq, Repr

/-- `TabData.__init__`: all flags cleared, `open_target` is
`ClickTarget.normal`, `hint_target` is `None`. -/
def TabData.init : TabData :=
  { keep_icon := false
    viewing_source := false
    inspector := Option.none
    open_target := ClickTarget.normal
    hint_target := Option.none }

/-- `TabData.combined_target`: the hint target if set, else the open
target. -/
def TabData.combined_target (d : TabData) : ClickTarget :=
  match d.hint_target with
  | some t => t
  | none => d.open_target

/-- `TabData._on_start_hinting`: store the given target in
`hint_target`. -/
def TabData.on_start_hinting (d : TabData) (hint_target : ClickTarget) : TabData :=
  { d with hint_target := some hint_target }

/-- `TabData._on_stop_hinting`: reset `hint_target` to `None`. -/
def TabData.on_stop_hinting (d : TabData) : TabData :=
  { d with hint_target := Option.none }

/-- The signals of `AbstractTab` that the embedded slots emit, with their
payloads. -/
inductive Sig
  | load_status_changed (statusName : String)
  | load_started
  | load_finished (ok : Bool)
  | title_changed (text : String)
  | load_progress (perc : Int)
  deriving DecidableEq, Repr

/-- The state of an `AbstractTab` relevant to the load lifecycle, together
with the values the backend widget currently reports (`url().scheme()`,
`url().toDisplayString()`, `title()`; an empty `title` models a falsy
title). -/
structure Tab where
  progressAttr : Int
  has_ssl_errors : Bool
  load_status_attr : LoadStatus
  data : TabData
  url_scheme : String
  url_display : String
  titleAttr : String
  deriving DecidableEq, Repr

/-- An argument passed to `_set_load_status`: either a `LoadStatus` member,
or any other Python object (for which the `isinstance` check fails). -/
inductive LoadStatusArg
  | member (val : LoadStatus)
  | notMember
  deriving DecidableEq, Repr

/-- `AbstractTab._set_load_status(val)`.  Returns the state left behind, the
signals emitted, and whether a `TypeError` was raised.  The type check comes
first, so on a non-member nothing is stored and nothing is emitted. -/
def Tab.set_load_status (t : Tab) (val : LoadStatusArg) :
    Tab × List Sig × Bool :=
  match val with
  | .notMember => (t, [], true)
  | .member v =>
      ({ t with load_status_attr := v }, [Sig.load_status_changed v.name], false)

/-- `AbstractTab.load_status()`: returns `self._load_status`. -/
def Tab.load_status (t : Tab) : LoadStatus := t.load_status_attr

/-- `AbstractTab.progress()`: returns `self._progress`. -/
def Tab.progress (t : Tab) : Int := t.progressAttr

/-- `AbstractTab.title()` as seen by the load-lifecycle slots: the value the
backend widget reports. -/
def Tab.title (t : Tab) : String := t.titleAttr

/-- `AbstractTab._on_load_started`: reset progress and the SSL flag, clear
`data.viewing_source`, set the load status to `loading` (which emits
`load_status_changed`), then emit `load_started`. -/
def Tab.on_load_started (t : Tab) : Tab × List Sig :=
  let t1 := { t with progressAttr := 0
                     has_ssl_errors := false
                     data := { t.data with viewing_source := false } }
  let r := t1.set_load_status (.member .loading)
  (r.1, r.2.1 ++ [Sig.load_started])

/-- `AbstractTab._on_load_finished(ok)`: pick the new status from `ok`, the
SSL flag and the URL scheme, store it (emitting `load_status_changed`), emit
`load_finished(ok)`, then emit `title_changed` with the URL's display string
when the title is empty/falsy. -/
def Tab.on_load_finished (t : Tab) (ok : Bool) : Tab × List Sig :=
  let status :=
    if ok && !t.has_ssl_errors then
      if t.url_scheme = "https" then LoadStatus.success_https
      else LoadStatus.success
    else if ok then LoadStatus.warn
    else LoadStatus.error
  let r := t.set_load_status (.member status)
  let sigs := r.2.1 ++ [Sig.load_finished ok]
  let sigs := if r.1.title = "" then sigs ++ [Sig.title_changed r.1.url_display]
              else sigs
  (r.1, sigs)

/-- `AbstractTab._on_ssl_errors`: record that SSL errors happened. -/
def Tab.on_ssl_errors (t : Tab) : Tab :=
  { t with has_ssl_errors := true }

/-- `AbstractTab._on_load_progress(perc)`: store the percentage and emit
`load_progress`. -/
def Tab.on_load_progress (t : Tab) (perc : Int) : Tab × List Sig :=
  ({ t with progressAttr := perc }, [Sig.load_progress perc])

/-- The concrete tab classes `create` can return.  Both subclass
`AbstractTab`, so both satisfy the same interface; here that is reflected by
both being values of this one type. -/
inductive TabClass
  | webEngineTab
  | webKitTab
  deriving DecidableEq, Repr

/-- `browsertab.create(win_id, parent)`: dispatch on the registered
application arguments' `backend` value — `WebEngineTab` for `'webengine'`,
`WebKitTab` for everything else. -/
def create (backend : String) : TabClass :=
  if backend = "webengine" then TabClass.webEngineTab else TabClass.webKitTab

/-- A `QUrl` as used by `_on_link_clicked`: validity plus display string. -/
structure Url where
  valid : Bool
  display : String
  deriving DecidableEq, Repr

/-- The externally visible effects of `_on_link_clicked`: showing an error
message, creating (and showing) a new main window, and a
`tabbed_browser.tabopen(url, background=...)` call — `inNewWindow` records
whether the tabopen went to the freshly created window or to the tab's own
window. -/
inductive LinkEffect
  | error_message
  | new_window
  | tabopen (inNewWindow : Bool) (url : Url) (background : Bool)
  deriving DecidableEq, Repr

/-- `AbstractTab._on_link_clicked(url)`: on an invalid URL show an error and
reset `open_target`; otherwise dispatch on `combined_target()`: `normal`
does nothing, `tab`/`tab_bg` open the URL in the same window (background for
`tab_bg`), `window` creates a new window and opens the URL there in the
foreground; in all three opening cases `open_target` is reset to `normal`
afterwards. -/
def Tab.on_link_clicked (t : Tab) (url : Url) : Tab × List LinkEffect :=
  if !url.valid then
    ({ t with data := { t.data with open_target := ClickTarget.normal } },
     [LinkEffect.error_message])
  else
    match t.data.combined_target with
    | .normal => (t, [])
    | .tab =>
        ({ t with data := { t.data with open_target := ClickTarget.normal } },
         [LinkEffect.tabopen false url false])
    | .tab_bg =>
        ({ t with data := { t.data with open_target := ClickTarget.normal } },
         [LinkEffect.tabopen false url true])
    | .window =>
        ({ t with data := { t.data with open_target := ClickTarget.normal } },
         [LinkEffect.new_window, LinkEffect.tabopen true url false])

/-- Python `int()` applied to a (rational-modelled) float: truncation toward
zero. -/
def pyInt (q : ℚ) : Int := if q < 0 then ⌈q⌉ else ⌊q⌋

/-- The state of `AbstractZoom` touched by `set_factor`: the neighborlist's
`fuzzyval`, the `_default_zoom_changed` flag, and the factor last handed to
`_set_factor_internal` (the widget's zoom factor, `None` before any call). -/
structure ZoomState where
  fuzzyval : Int
  default_zoom_changed : Bool
  internal_factor : Option ℚ
  deriving DecidableEq, Repr

/-- `AbstractZoom.set_factor(factor, fuzzyval=...)`: first update the
neighborlist's `fuzzyval` to `int(factor * 100)` when requested, then raise
`ValueError` for a negative factor (the returned flag), else set
`_default_zoom_changed` and call `_set_factor_internal(factor)`. -/
def ZoomState.set_factor (z : ZoomState) (factor : ℚ) (fuzzyval : Bool) :
    ZoomState × Bool :=
  let z1 := if fuzzyval then { z with fuzzyval := pyInt (factor * 100) } else z
  if factor < 0 then (z1, true)
  else ({ z1 with default_zoom_changed := true
                  internal_factor := some factor }, false)

/-- A request recorded by the test webserver / an `ExpectedRequest`, compared
by verb and path. -/
structure Request where
  verb : String
  path : String
  deriving DecidableEq, Repr

/-- The expected-request list both steps build from the step text: one
`ExpectedRequest('GET', '/' + path.strip())` per line. -/
def expectedRequests (lines : List String) : List Request :=
  lines.map fun p => { verb := "GET", path := "/" ++ p.trim }

/-- The step `The requests should be:`
(`conftest.list_of_requests`): asserts the actual request list equals the
expected one. -/
def list_of_requests (lines : List String) (actual : List Request) : Bool :=
  decide (actual = expectedRequests lines)

/-- The step `The unordered requests should be:`
(`conftest.list_of_requests_unordered`): asserts
`Counter(actual) == Counter(expected)`, i.e. equality as multisets. -/
def list_of_requests_unordered (lines : List String) (actual : List Request) :
    Bool :=
  decide ((actual : Multiset Request) = (expectedRequests lines : Multiset Request))

/-- The process-wide tab-construction state: the position of the module-level
`tab_id_gen = itertools.count(0)` counter, and the window tab-registries as a
list of `(win_id, tab_id)` registrations, newest first. -/
structure RegState where
  counter : Nat
  registry : List (Nat × Nat)
  deriving DecidableEq, Repr

/-- The process state at import time: `itertools.count(0)` not yet advanced,
no tabs registered. -/
def RegState.init : RegState := { counter := 0, registry := [] }

/-- The id-drawing and registering part of `AbstractTab.__init__`:
`self.tab_id = next(tab_id_gen)` then
`tab_registry[self.tab_id] = self` in the window's registry.  Returns the
new state and the tab id handed out. -/
def tabInit (s : RegState) (win_id : Nat) : RegState × Nat :=
  ({ counter := s.counter + 1
     registry := (win_id, s.counter) :: s.registry }, s.counter)

/-- A whole sequence of tab constructions (one per listed window id), with
the list of tab ids handed out, in construction order. -/
def runTabInits : RegState → List Nat → RegState × List Nat
  | s, [] => (s, [])
  | s, w :: ws =>
      let p := tabInit s w
      let q := runTabInits p.1 ws
      (q.1, p.2 :: q.2)

/-! ## Theorems about the claims -/

/-- C1: `_on_load_finished(ok)` sets the load status to `success_https` when
`ok` holds, no SSL errors were recorded and the URL scheme is `https`; to
`success` when `ok` holds, no SSL errors were recorded and the scheme is
anything else; to `warn` when `ok` holds but SSL errors were recorded; and to
`error` when `ok` is false.  `load_status()` afterwards returns exactly that
value. -/
theorem C1_load_finished_status (t : Tab) (ok : Bool) :
    ((t.on_load_finished ok).1).load_status =
      (if ok then
         (if t.has_ssl_errors then LoadStatus.warn
          else if t.url_scheme = "https" then LoadStatus.success_https
          else LoadStatus.success)
       else LoadStatus.error) := by
  cases ok <;> cases h : t.has_ssl_errors <;>
    by_cases hs : t.url_scheme = "https" <;>
    simp [Tab.on_load_finished, Tab.set_load_status, Tab.load_status, h, hs]

/-- C2: `_on_load_started()` resets progress to 0 (so `progress()` returns
0), clears the SSL-error flag, clears `data.viewing_source`, and sets the
load status to `loading`; every other part of the tab state — in particular
`data.open_target` and `data.hint_target` — is unchanged. -/
theorem C2_load_started_state (t : Tab) :
    (t.on_load_started).1 =
      { t with progressAttr := 0
               has_ssl_errors := false
               load_status_attr := LoadStatus.loading
               data := { t.data with viewing_source := false } } ∧
    ((t.on_load_started).1).progress = 0 ∧
    ((t.on_load_started).1).load_status = LoadStatus.loading := by
  refine ⟨?_, ?_, ?_⟩ <;>
    simp [Tab.on_load_started, Tab.set_load_status, Tab.progress,
      Tab.load_status]

/-- C3: in `_on_load_finished(ok)` the emitted signals are exactly
`load_status_changed` (with the new status's name), then `load_finished ok`,
then — only when the title is empty/falsy — `title_changed` with the URL's
display string; in `_on_load_started` they are exactly
`load_status_changed "loading"` then `load_started`. -/
theorem C3_signal_order (t : Tab) (ok : Bool) :
    (t.on_load_finished ok).2 =
      [Sig.load_status_changed (((t.on_load_finished ok).1).load_status).name,
       Sig.load_finished ok] ++
        (if t.title = "" then [Sig.title_changed t.url_display] else []) ∧
    (t.on_load_started).2 =
      [Sig.load_status_changed "loading", Sig.load_started] := by
  constructor
  · cases ok <;> cases h : t.has_ssl_errors <;>
      by_cases hs : t.url_scheme = "https" <;>
      by_cases ht : t.titleAttr = "" <;>
      simp [Tab.on_load_finished, Tab.set_load_status, Tab.load_status,
        Tab.title, LoadStatus.name, h, hs, ht]
  · simp [Tab.on_load_started, Tab.set_load_status, LoadStatus.name]

/-- C4: `combined_target()` returns `hint_target` when that is not `None`
and `open_target` otherwise; `_on_start_hinting(t)` sets `hint_target` to
`t` and `_on_stop_hinting()` resets it to `None`, both leaving
`open_target` (and the rest of the namespace) unchanged. -/
theorem C4_hint_target (d : TabData) (tgt : ClickTarget) :
    d.combined_target = d.hint_target.getD d.open_target ∧
    d.on_start_hinting tgt = { d with hint_target := some tgt } ∧
    d.on_stop_hinting = { d with hint_target := Option.none } := by
  refine ⟨?_, rfl, rfl⟩
  cases h : d.hint_target <;> simp [TabData.combined_target, h]

/-- C5: `create(win_id, parent)` returns a `WebEngineTab` exactly when the
registered arguments' backend is `'webengine'`, and a `WebKitTab` exactly
when it is anything else. -/
theorem C5_create_dispatch (backend : String) :
    (create backend = TabClass.webEngineTab ↔ backend = "webengine") ∧
    (create backend = TabClass.webKitTab ↔ backend ≠ "webengine") := by
  by_cases h : backend = "webengine" <;> simp [create, h]

/-- C6: `_on_link_clicked(url)` shows an error message, resets
`open_target` to `normal` and opens nothing when the URL is invalid; opens
nothing and changes nothing when the combined target is `normal`; opens the
URL via `tabopen` in the same window (background exactly for `tab_bg`) when
the combined target is `tab`/`tab_bg`; creates a new window and opens the
URL there in the foreground when the combined target is `window`; in the
opening cases `open_target` is reset to `normal` afterwards. -/
theorem C6_link_clicked (t : Tab) (url : Url) :
    (t.on_link_clicked url).2 =
      (if url.valid then
         (match t.data.combined_target with
          | .normal => []
          | .tab => [LinkEffect.tabopen false url false]
          | .tab_bg => [LinkEffect.tabopen false url true]
          | .window => [LinkEffect.new_window, LinkEffect.tabopen true url false])
       else [LinkEffect.error_message]) ∧
    (t.on_link_clicked url).1.data.open_target =
      (if url.valid ∧ t.data.combined_target = ClickTarget.normal then
         t.data.open_target
       else ClickTarget.normal) ∧
    (t.on_link_clicked url).1.data.hint_target = t.data.hint_target := by
  cases hv : url.valid <;> cases hc : t.data.combined_target <;>
    simp [Tab.on_link_clicked, hv, hc]

/-- C7: `set_factor(factor)` (with the default `fuzzyval=True`) raises
`ValueError` exactly when `factor < 0`, and in that case never reaches
`_set_factor_internal`, so the widget's zoom factor is unchanged — but the
neighborlist's `fuzzyval` has already been set to `int(factor * 100)`; for
`factor >= 0` no exception is raised and `_default_zoom_changed` becomes
`True`. -/
theorem C7_set_factor (z : ZoomState) (factor : ℚ) :
    ((z.set_factor factor true).2 = true ↔ factor < 0) ∧
    (z.set_factor factor true).1.fuzzyval = pyInt (factor * 100) ∧
    (z.set_factor factor true).1.internal_factor =
      (if factor < 0 then z.internal_factor else some factor) ∧
    (z.set_factor factor true).1.default_zoom_changed =
      (if factor < 0 then z.default_zoom_changed else true) := by
  by_cases h : factor < 0 <;> simp [ZoomState.set_factor, h]

/-- C8: the step `The requests should be:` passes exactly when the actual
request list equals the expected one as an ordered sequence, while
`The unordered requests should be:` passes exactly when the actual list is a
permutation of the expected one (equality as multisets). -/
theorem C8_request_steps (lines : List String) (actual : List Request) :
    (list_of_requests lines actual = true ↔ actual = expectedRequests lines) ∧
    (list_of_requests_unordered lines actual = true ↔
      actual.Perm (expectedRequests lines)) := by
  constructor
  · simp [list_of_requests]
  · simp [list_of_requests_unordered, Multiset.coe_eq_coe]

/-- C9: `_set_load_status(val)` on a non-`LoadStatus` value raises
`TypeError`, leaving the stored status unchanged and emitting nothing; on a
`LoadStatus` member it stores the value and emits `load_status_changed`
exactly once, carrying the member's name. -/
theorem C9_set_load_status_guard (t : Tab) (v : LoadStatus) :
    t.set_load_status LoadStatusArg.notMember = (t, [], true) ∧
    t.set_load_status (LoadStatusArg.member v) =
      ({ t with load_status_attr := v },
       [Sig.load_status_changed v.name], false) :=
  ⟨rfl, rfl⟩

/-- Running `tabInit` for each listed window from an arbitrary state: the
ids handed out are the consecutive integers starting at the counter's
position, the counter advances by the number of constructions, and the
registrations pile up accordingly. -/
theorem runTabInits_spec (ws : List Nat) : ∀ s : RegState,
    (runTabInits s ws).2 = List.range' s.counter ws.length ∧
    (runTabInits s ws).1.counter = s.counter + ws.length ∧
    (runTabInits s ws).1.registry =
      (ws.zip (List.range' s.counter ws.length)).reverse ++ s.registry := by
  induction ws with
  | nil => intro s; simp [runTabInits]
  | cons w ws ih =>
      intro s
      obtain ⟨h1, h2, h3⟩ :=
        ih { counter := s.counter + 1, registry := (w, s.counter) :: s.registry }
      refine ⟨?_, ?_, ?_⟩
      · simp [runTabInits, tabInit, List.range'_succ, h1]
      · simp [runTabInits, tabInit, h2]
        omega
      · simp [runTabInits, tabInit, List.range'_succ, h3]

/-- C10: starting from the import-time state, the tab ids handed out by a
sequence of `AbstractTab.__init__` calls are `0, 1, 2, ...` — pairwise
distinct and strictly increasing from 0, drawn from the one shared counter —
and each tab is registered in its window's tab-registry under exactly its
id. -/
theorem C10_tab_ids (ws : List Nat) :
    (runTabInits RegState.init ws).2 = List.range ws.length ∧
    List.Pairwise (· < ·) (runTabInits RegState.init ws).2 ∧
    ((runTabInits RegState.init ws).2).Nodup ∧
    (runTabInits RegState.init ws).1.registry =
      (ws.zip (List.range ws.length)).reverse := by
  obtain ⟨h1, _, h3⟩ := runTabInits_spec ws RegState.init
  have hr : List.range' RegState.init.counter ws.length = List.range ws.length := by
    simp [RegState.init, (List.range_eq_range' ws.length).symm]
  rw [hr] at h1 h3
  refine ⟨h1, ?_, ?_, by simpa [RegState.init] using h3⟩
  · rw [h1]; exact List.pairwise_lt_range ws.length
  · rw [h1]; exact List.nodup_range ws.length
